import Mathlib

/-!
Shallow embedding of the greenlight movie data-access layer
(src/internal/data/movies.go, src/internal/data/models.go).

The Go code issues SQL statements against PostgreSQL; the database is
modelled as an explicit state (`DB`): a list of stored rows plus the
id-generating sequence.  Each Go method becomes a pure Lean function from
the database state (and the caller's in-memory `Movie`) to a result record
containing the returned error, the possibly-mutated caller record, the new
database state, and whether a backend round-trip happened.  Backend faults
(connectivity and the like) are modelled by an injected `fault : Option Nat`
parameter: `some code` makes the backend query fail with an opaque error.

Machine integers: Go `int64`/`int32` fields are modelled as `Int`.  The one
place where 32-bit overflow matters is `version = version + 1` in the
UPDATE statement (the `version` column is a 32-bit integer); PostgreSQL
raises an integer-out-of-range error there instead of wrapping, which the
model makes explicit.

Wall-clock time: `MovieModel.Get`'s query contains `pg_sleep(10)` in its
select list (evaluated once per returned row, hence not at all when no row
matches) and runs under a 3-second `context.WithTimeout` deadline.  This is
modelled symbolically: the query's elapsed seconds are `10` when a row
matches and `0` otherwise, and the backend reports deadline-exceeded when
the elapsed time exceeds the timeout.
-/

namespace Greenlight

/-- The `Movie` struct (movies.go:12-20).  `ID` is `int64`, `Year`,
`Runtime` and `Version` are 32-bit integers, `CreatedAt` is a `time.Time`
modelled as Unix seconds (`0` is Go's zero time, i.e. unpopulated).
The same shape serves as a stored table row (schema: one row per record
with columns id, created_at, title, year, runtime, genres, version). -/
structure Movie where
  ID : Int
  CreatedAt : Nat
  Title : String
  Year : Int
  Runtime : Int
  Genres : List String
  Version : Int
deriving Repr, DecidableEq

/-- Opaque backend failures: everything the Go code receives from
`database/sql` other than `sql.ErrNoRows`.  `deadlineExceeded` is the
context-deadline error, `integerOutOfRange` is PostgreSQL's overflow error
for `version = version + 1` on a 32-bit column, `fault code` is any other
injected operational failure (connectivity, constraint, ...). -/
inductive BackendErr where
  | deadlineExceeded
  | integerOutOfRange
  | fault (code : Nat)
deriving Repr, DecidableEq

/-- The error taxonomy seen by callers: `recordNotFound` models
`ErrRecordNotFound` (models.go:7), `editConflict` models `ErrEditConflict`
(referenced at movies.go:123; its declaration is not under src), and
`other e` is any backend error propagated unchanged through a `default`
branch — the generic storage error. -/
inductive Err where
  | recordNotFound
  | editConflict
  | other (e : BackendErr)
deriving Repr, DecidableEq

/-- The persisted database state: the `movies` table rows plus the
sequence that generates `id` (a PostgreSQL bigserial; `nextId` is the value
the next insert receives). -/
structure DB where
  rows : List Movie
  nextId : Int
deriving Repr, DecidableEq

/-- `SELECT ... FROM movies WHERE id = $1` under `QueryRow`: the first
stored row whose id matches. -/
def DB.find (db : DB) (id : Int) : Option Movie :=
  db.rows.find? (fun r => r.ID == id)

/-- Well-formedness of the stored state: `id` is a primary key, so no two
rows share an id. -/
def DB.wf (db : DB) : Prop :=
  db.rows.Pairwise (fun a b => a.ID ≠ b.ID)

instance (db : DB) : Decidable db.wf := by
  unfold DB.wf; infer_instance

/-- Result of `MovieModel.Insert`: the returned error (`none` = nil), the
caller's movie after `Scan` wrote the generated columns into it, and the
new database state. -/
structure InsertResult where
  err : Option Err
  movie : Movie
  newDb : DB
deriving Repr, DecidableEq

/-- The `( *Movie, error)` return value of `MovieModel.Get`: either a
non-nil error with a nil movie pointer, or a movie with a nil error. -/
inductive GetRes where
  | failure (e : Err)
  | success (m : Movie)
deriving Repr, DecidableEq

/-- Result of `MovieModel.Get`: the `( *Movie, error)` return value, plus
whether a backend query was issued at all. -/
structure GetResult where
  res : GetRes
  backendCalled : Bool
deriving Repr, DecidableEq

/-- Result of `MovieModel.Update`: the returned error (`none` = nil), the
caller's movie after `Scan` possibly wrote the new version into it, the new
database state, and whether a backend query was issued. -/
structure UpdateResult where
  err : Option Err
  movie : Movie
  newDb : DB
  backendCalled : Bool
deriving Repr, DecidableEq

/-- Result of `MovieModel.Delete`: the returned error (`none` = nil), the
new database state, and whether a backend query was issued. -/
structure DeleteResult where
  err : Option Err
  newDb : DB
  backendCalled : Bool
deriving Repr, DecidableEq

/-- Largest value a PostgreSQL 32-bit `integer` column can hold. -/
def maxInt32 : Int := 2147483647

/-- `MovieModel.Insert` (movies.go:42-60).
`INSERT INTO movies (title, year, runtime, genres) VALUES ($1,$2,$3,$4)
RETURNING id, created_at, version`: the database assigns `id` from the
sequence, `created_at` from the clock (`now`, Unix seconds), and `version`
from its default `1`; the remaining columns are taken from the caller's
movie as given.  `Scan` then writes the three returned columns into
`movie.ID`, `movie.CreatedAt`, `movie.Version`.  If the query fails
(injected `fault`), the error is returned as-is and nothing is written. -/
def MovieModel.Insert (fault : Option Nat) (db : DB) (now : Nat)
    (movie : Movie) : InsertResult :=
  match fault with
  | some c => { err := some (.other (.fault c)), movie := movie, newDb := db }
  | none =>
    let row : Movie :=
      { ID := db.nextId
        CreatedAt := now
        Title := movie.Title
        Year := movie.Year
        Runtime := movie.Runtime
        Genres := movie.Genres
        Version := 1 }
    { err := none
      movie := { movie with ID := db.nextId, CreatedAt := now, Version := 1 }
      newDb := { rows := db.rows ++ [row], nextId := db.nextId + 1 } }

/-- The context timeout of `MovieModel.Get`: `3*time.Second`
(movies.go:74), in seconds. -/
def getTimeoutSeconds : Nat := 3

/-- The artificial delay in `MovieModel.Get`'s query: `pg_sleep(10)` in the
select list (movies.go:67), in seconds. -/
def pgSleepSeconds : Nat := 10

/-- Seconds the Get query spends before returning: `pg_sleep(10)` sits in
the select list, so it runs once per returned row — `10` seconds when a row
matches the id, `0` when none does. -/
def getElapsedSeconds (db : DB) (id : Int) : Nat :=
  match db.find id with
  | some _ => pgSleepSeconds
  | none => 0

/-- `MovieModel.Get` (movies.go:62-99).
Ids below 1 are rejected up front with `ErrRecordNotFound`, before any
context or query exists.  Otherwise the query runs under the 3-second
deadline: an injected backend fault, or the deadline expiring while
`pg_sleep(10)` runs, surfaces through the `default` branch unchanged;
`sql.ErrNoRows` maps to `ErrRecordNotFound`; a returned row is scanned into
a fresh movie and returned. -/
def MovieModel.Get (fault : Option Nat) (db : DB) (id : Int) : GetResult :=
  if id < 1 then
    { res := .failure .recordNotFound, backendCalled := false }
  else
    match fault with
    | some c => { res := .failure (.other (.fault c)), backendCalled := true }
    | none =>
      if getTimeoutSeconds < getElapsedSeconds db id then
        { res := .failure (.other .deadlineExceeded), backendCalled := true }
      else
        match db.find id with
        | none => { res := .failure .recordNotFound, backendCalled := true }
        | some r => { res := .success r, backendCalled := true }

/-- The row update performed by the UPDATE statement on a matching row:
title, year, runtime and genres are overwritten from the caller's movie and
the stored version is incremented. -/
def updateRow (movie : Movie) (r : Movie) : Movie :=
  { r with
    Title := movie.Title
    Year := movie.Year
    Runtime := movie.Runtime
    Genres := movie.Genres
    Version := r.Version + 1 }

/-- `MovieModel.Update` (movies.go:101-129).
`UPDATE movies SET title=$1, year=$2, runtime=$3, genres=$4,
version = version + 1 WHERE id = $5 AND version = $6 RETURNING version`.
There is no id pre-check.  An injected backend fault is returned unchanged.
If no row satisfies `id = movie.ID AND version = movie.Version`, `Scan`
sees `sql.ErrNoRows` and the method returns `ErrEditConflict`, the stored
state and the caller's movie untouched.  If the matching row holds version
`maxInt32`, PostgreSQL raises integer-out-of-range for `version + 1` and
the statement aborts, the error propagating through the `default` branch.
Otherwise the row is overwritten, and `Scan` writes the returned new
version into `movie.Version`. -/
def MovieModel.Update (fault : Option Nat) (db : DB) (movie : Movie) :
    UpdateResult :=
  match fault with
  | some c =>
    { err := some (.other (.fault c))
      movie := movie
      newDb := db
      backendCalled := true }
  | none =>
    match db.rows.find? (fun r => r.ID == movie.ID && r.Version == movie.Version) with
    | none =>
      { err := some .editConflict
        movie := movie
        newDb := db
        backendCalled := true }
    | some r =>
      if r.Version + 1 ≤ maxInt32 then
        { err := none
          movie := { movie with Version := r.Version + 1 }
          newDb := { db with rows := db.rows.map (fun s =>
            if s.ID == movie.ID && s.Version == movie.Version then
              updateRow movie s
            else s) }
          backendCalled := true }
      else
        { err := some (.other .integerOutOfRange)
          movie := movie
          newDb := db
          backendCalled := true }

/-- `MovieModel.Delete` (movies.go:131-160).
Ids below 1 are rejected up front with `ErrRecordNotFound`, before any
query.  Otherwise `DELETE FROM movies WHERE id = $1` runs unconditionally;
an injected backend fault is returned unchanged with nothing deleted.  The
affected-row count is inspected: zero means `ErrRecordNotFound`, otherwise
nil is returned. -/
def MovieModel.Delete (fault : Option Nat) (db : DB) (id : Int) :
    DeleteResult :=
  if id < 1 then
    { err := some .recordNotFound, newDb := db, backendCalled := false }
  else
    match fault with
    | some c =>
      { err := some (.other (.fault c)), newDb := db, backendCalled := true }
    | none =>
      let rowsAffected := (db.rows.filter (fun r => r.ID == id)).length
      let db' : DB := { db with rows := db.rows.filter (fun r => r.ID != id) }
      if rowsAffected == 0 then
        { err := some .recordNotFound, newDb := db', backendCalled := true }
      else
        { err := none, newDb := db', backendCalled := true }

/-- Modelled from the spec: the `validator` package is not under src/
(movies.go imports it and `ValidateMovie` calls `v.Check` and
`validator.Unique`).  Per §4.1 the validator collects violations as
field-name → human-readable-message pairs forming a set keyed by field
name; `errors` holds that set, at most one message per field key. -/
structure Validator where
  errors : List (String × String)
deriving Repr, DecidableEq

/-- Whether the violation set holds an entry keyed `key`. -/
def hasKey (key : String) (errors : List (String × String)) : Bool :=
  errors.any (fun p => p.1 == key)

/-- Modelled from the spec: recording a violation keyed `key` into the
violation set (a set keyed by field name, so a key already present keeps
its first message). -/
def Validator.AddError (v : Validator) (key message : String) : Validator :=
  if hasKey key v.errors then v
  else { errors := v.errors ++ [(key, message)] }

/-- Modelled from the spec: `v.Check(ok, key, message)` records the
violation exactly when `ok` is false; every invariant is evaluated
independently (non-short-circuiting). -/
def Validator.Check (v : Validator) (ok : Bool) (key message : String) :
    Validator :=
  if ok then v else v.AddError key message

/-- Modelled from the spec: `validator.Unique` — set-uniqueness over the
sequence, true exactly when no value repeats. -/
def validator.Unique (values : List String) : Bool :=
  match values with
  | [] => true
  | x :: xs => !xs.contains x && validator.Unique xs

/-- `ValidateMovie` (movies.go:21-33).  Eleven independent checks; `len`
on a Go string is its byte length, hence `String.utf8ByteSize`; the
current calendar year (`time.Now().Year()`) is the `currentYear`
parameter; a Go nil genres slice is modelled as the empty list. -/
def ValidateMovie (currentYear : Int) (v : Validator) (movie : Movie) :
    Validator :=
  let v := v.Check (movie.Title != "") "title" "must be provided"
  let v := v.Check (decide (movie.Title.utf8ByteSize ≤ 500)) "title" "must not be more than 500 bytes long"
  let v := v.Check (movie.Year != 0) "year" "must be provided"
  let v := v.Check (decide (1888 ≤ movie.Year)) "year" "must be greater than 1888"
  let v := v.Check (decide (movie.Year ≤ currentYear)) "year" "must not be in the future"
  let v := v.Check (movie.Runtime != 0) "runtime" "must be provided"
  let v := v.Check (decide (0 < movie.Runtime)) "runtime" "must be a positive integer"
  let v := v.Check (movie.Genres != ([] : List String)) "genres" "must be provided"
  let v := v.Check (decide (1 ≤ movie.Genres.length)) "genres" "must contain at least 1 genre"
  let v := v.Check (decide (movie.Genres.length ≤ 5)) "genres" "must not contain more than 5 genres"
  v.Check (validator.Unique movie.Genres) "genres" "must not contain duplicate values"

/-- The violations `ValidateMovie` produces on a fresh validator. -/
def movieViolations (currentYear : Int) (movie : Movie) :
    List (String × String) :=
  (ValidateMovie currentYear { errors := [] } movie).errors

/-- A concrete movie with valid fields, as a caller builds it before an
insert: id, created_at and version still hold their zero values. -/
def sampleMovie : Movie :=
  { ID := 0
    CreatedAt := 0
    Title := "Casablanca"
    Year := 1942
    Runtime := 102
    Genres := ["drama", "romance"]
    Version := 0 }

/-- The stored row produced by inserting `sampleMovie` into an empty
database at Unix time 1700000000. -/
def sampleRow : Movie :=
  { ID := 1
    CreatedAt := 1700000000
    Title := "Casablanca"
    Year := 1942
    Runtime := 102
    Genres := ["drama", "romance"]
    Version := 1 }

/-- A title of exactly 501 bytes (501 ASCII characters). -/
def title501 : String := String.mk (List.replicate 501 'a')

/-- An empty movies table with the id sequence at its start. -/
def emptyDb : DB := { rows := [], nextId := 1 }

/-- A database holding exactly `sampleRow`. -/
def sampleDb : DB := { rows := [sampleRow], nextId := 2 }

theorem hasKey_Check (v : Validator) (b : Bool) (k' k msg : String) :
    hasKey k (v.Check b k' msg).errors
      = (hasKey k v.errors || (!b && (k' == k))) := by
  unfold Validator.Check Validator.AddError
  by_cases hb : b
  · simp [hb]
  · simp only [hb, Bool.false_eq_true, if_false, Bool.not_false, Bool.true_and]
    by_cases hk : hasKey k' v.errors
    · simp only [hk, if_true]
      by_cases hkk : (k' == k) = true
      · rw [hkk]
        rw [eq_of_beq hkk] at hk
        simp [hk]
      · simp only [Bool.not_eq_true] at hkk
        simp [hkk]
    · simp only [hk, if_false]
      simp [hasKey]

theorem Check_errors_eq_nil (v : Validator) (b : Bool) (k msg : String) :
    ((v.Check b k msg).errors = []) ↔ (v.errors = [] ∧ b = true) := by
  unfold Validator.Check Validator.AddError
  by_cases hb : b
  · simp [hb]
  · simp only [hb, Bool.false_eq_true, if_false, and_false, iff_false]
    by_cases hk : hasKey k v.errors
    · simp only [hk, if_true]
      intro h
      rw [h] at hk
      simp [hasKey] at hk
    · simp [hk]

theorem Unique_eq_true_iff (l : List String) :
    validator.Unique l = true ↔ l.Nodup := by
  induction l with
  | nil => simp [validator.Unique]
  | cons x xs ih =>
    simp only [validator.Unique, Bool.and_eq_true, Bool.not_eq_true',
      List.nodup_cons, ih]
    constructor
    · rintro ⟨h1, h2⟩
      exact ⟨by simpa using h1, h2⟩
    · rintro ⟨h1, h2⟩
      exact ⟨by simpa using h1, h2⟩

/-- Claim C1: if the conditional UPDATE of `MovieModel.Update` finds zero
rows matching `id = movie.ID AND version = movie.Version` — for whatever
cause — the method returns `ErrEditConflict` (not `ErrRecordNotFound`, no
retry, the cause never distinguished) and both the stored state and the
caller's record are left unchanged. -/
theorem update_zero_rows_edit_conflict (db : DB) (movie : Movie)
    (h : db.rows.find? (fun r => r.ID == movie.ID && r.Version == movie.Version) = none) :
    MovieModel.Update none db movie =
      { err := some .editConflict
        movie := movie
        newDb := db
        backendCalled := true } := by
  unfold MovieModel.Update
  rw [h]

/-- Witness for C1: a stale-version update against `sampleDb` (stored
version is 1, submitted version is 2) matches zero rows and yields exactly
an edit conflict with the state untouched. -/
theorem update_zero_rows_edit_conflict_witness :
    MovieModel.Update none sampleDb { sampleMovie with ID := 1, Version := 2 } =
      { err := some .editConflict
        movie := { sampleMovie with ID := 1, Version := 2 }
        newDb := sampleDb
        backendCalled := true } :=
  update_zero_rows_edit_conflict sampleDb
    { sampleMovie with ID := 1, Version := 2 } (by decide)

/-- Claim C3: for every id below 1, `MovieModel.Get` returns
`ErrRecordNotFound` immediately, with no backend call, whatever the
backend would have done. -/
theorem get_invalid_id_not_found (fault : Option Nat) (db : DB) (id : Int)
    (h : id < 1) :
    MovieModel.Get fault db id =
      { res := .failure .recordNotFound, backendCalled := false } := by
  unfold MovieModel.Get
  simp [h]

/-- Witness for C3: `Get` of id 0 on `sampleDb`. -/
theorem get_invalid_id_not_found_witness :
    MovieModel.Get none sampleDb 0 =
      { res := .failure .recordNotFound, backendCalled := false } :=
  get_invalid_id_not_found none sampleDb 0 (by decide)

/-- Claim C4: `MovieModel.Delete` returns `ErrRecordNotFound` with no
backend call when the id is below 1; otherwise it deletes by id
unconditionally and returns `ErrRecordNotFound` exactly when zero rows
were affected, success when one row was. -/
theorem delete_by_id (fault : Option Nat) (db : DB) (id : Int) :
    (id < 1 → MovieModel.Delete fault db id =
      { err := some .recordNotFound, newDb := db, backendCalled := false })
    ∧ (1 ≤ id →
        (MovieModel.Delete none db id).backendCalled = true
        ∧ (MovieModel.Delete none db id).newDb.rows
            = db.rows.filter (fun r => r.ID != id)
        ∧ ((MovieModel.Delete none db id).err = some .recordNotFound
            ↔ (db.rows.filter (fun r => r.ID == id)).length = 0)
        ∧ ((db.rows.filter (fun r => r.ID == id)).length = 1
            → (MovieModel.Delete none db id).err = none)) := by
  constructor
  · intro h
    unfold MovieModel.Delete
    simp [h]
  · intro h
    have h' : ¬ id < 1 := by omega
    unfold MovieModel.Delete
    simp only [h', if_false]
    by_cases hz : (db.rows.filter (fun r => r.ID == id)).length = 0
    · simp [hz]
    · simp [hz]

/-- Witness for C4: on `sampleDb`, deleting id 0 short-circuits; deleting
id 1 affects one row and succeeds; deleting id 5 affects zero rows and
reports not-found. -/
theorem delete_by_id_witness :
    (MovieModel.Delete none sampleDb 0 =
      { err := some .recordNotFound, newDb := sampleDb, backendCalled := false })
    ∧ (MovieModel.Delete none sampleDb 1).err = none
    ∧ (MovieModel.Delete none sampleDb 1).newDb.rows = []
    ∧ (MovieModel.Delete none sampleDb 5).err = some .recordNotFound :=
  ⟨(delete_by_id none sampleDb 0).1 (by decide),
   ((delete_by_id none sampleDb 1).2 (by decide)).2.2.2 (by decide),
   by decide,
   ((delete_by_id none sampleDb 5).2 (by decide)).2.2.1.mpr (by decide)⟩

/-- Claim C5: inserting a movie with valid fields succeeds; the database
assigns the id from the sequence, created_at from the clock and version 1,
persists the remaining fields as given, and the generated values are
echoed into the caller's record, which afterwards has version 1, a
positive id, and a populated created_at. -/
theorem insert_populates_record (db : DB) (now : Nat) (movie : Movie)
    (y : Int) (hvalid : movieViolations y movie = [])
    (hseq : 1 ≤ db.nextId) (hnow : 0 < now) :
    (MovieModel.Insert none db now movie).err = none
    ∧ (MovieModel.Insert none db now movie).movie =
        { movie with ID := db.nextId, CreatedAt := now, Version := 1 }
    ∧ 0 < (MovieModel.Insert none db now movie).movie.ID
    ∧ (MovieModel.Insert none db now movie).movie.Version = 1
    ∧ 0 < (MovieModel.Insert none db now movie).movie.CreatedAt
    ∧ (MovieModel.Insert none db now movie).newDb.rows = db.rows ++
        [{ ID := db.nextId
           CreatedAt := now
           Title := movie.Title
           Year := movie.Year
           Runtime := movie.Runtime
           Genres := movie.Genres
           Version := 1 }]
    ∧ (MovieModel.Insert none db now movie).newDb.nextId = db.nextId + 1 := by
  unfold MovieModel.Insert
  refine ⟨rfl, rfl, ?_, rfl, hnow, rfl, rfl⟩
  simp only
  omega

/-- Witness for C5: inserting `sampleMovie` (valid at calendar year 2026)
into the empty database at Unix time 1700000000. -/
theorem insert_populates_record_witness :
    (MovieModel.Insert none emptyDb 1700000000 sampleMovie).err = none
    ∧ (MovieModel.Insert none emptyDb 1700000000 sampleMovie).movie =
        { sampleMovie with ID := 1, CreatedAt := 1700000000, Version := 1 }
    ∧ 0 < (MovieModel.Insert none emptyDb 1700000000 sampleMovie).movie.ID :=
  ⟨(insert_populates_record emptyDb 1700000000 sampleMovie 2026
      (by decide) (by decide) (by decide)).1,
   by decide,
   (insert_populates_record emptyDb 1700000000 sampleMovie 2026
      (by decide) (by decide) (by decide)).2.2.1⟩

theorem find?_map_updateRow (movie : Movie) (l : List Movie) (r : Movie)
    (hwf : l.Pairwise (fun a b => a.ID ≠ b.ID))
    (h : l.find? (fun s => s.ID == movie.ID && s.Version == movie.Version) = some r) :
    (l.map (fun s =>
        if s.ID == movie.ID && s.Version == movie.Version then updateRow movie s
        else s)).find? (fun s => s.ID == movie.ID)
      = some (updateRow movie r) := by
  induction l with
  | nil => simp at h
  | cons a l ih =>
    rw [List.pairwise_cons] at hwf
    by_cases pa : (a.ID == movie.ID && a.Version == movie.Version) = true
    · have hid : (a.ID == movie.ID) = true := ((Bool.and_eq_true _ _).mp pa).1
      simp only [List.find?_cons, pa] at h
      injection h with h
      subst h
      have hid' : ((updateRow movie a).ID == movie.ID) = true := by
        simpa [updateRow] using hid
      simp only [List.map_cons, pa, if_true, List.find?_cons, hid']
    · simp only [Bool.not_eq_true] at pa
      simp only [List.find?_cons, pa] at h
      simp only [List.map_cons, pa, Bool.false_eq_true, if_false, List.find?_cons]
      by_cases q : (a.ID == movie.ID) = true
      · exfalso
        have hr : r ∈ l := List.mem_of_find?_eq_some h
        have hpred := List.find?_some h
        have hrid : r.ID = movie.ID :=
          beq_iff_eq.mp ((Bool.and_eq_true _ _).mp hpred).1
        have haid : a.ID = movie.ID := beq_iff_eq.mp q
        exact (hwf.1 r hr) (haid.trans hrid.symm)
      · simp only [Bool.not_eq_true] at q
        simp only [q]
        exact ih hwf.2 h

/-- Claim C2: when the conditional UPDATE matches a stored row (same id,
same version), `MovieModel.Update` succeeds: the stored version was equal
to the submitted one and is incremented by exactly 1, the stored row takes
the submitted fields, and the new version `movie.Version + 1` is written
into the caller's record before returning.  (`hov` excludes the one case
where PostgreSQL raises instead: a stored version at the 32-bit maximum.) -/
theorem update_match_increments_version (db : DB) (movie r : Movie)
    (hwf : db.wf)
    (h : db.rows.find? (fun s => s.ID == movie.ID && s.Version == movie.Version) = some r)
    (hov : r.Version + 1 ≤ maxInt32) :
    (MovieModel.Update none db movie).err = none
    ∧ r.Version = movie.Version
    ∧ (MovieModel.Update none db movie).movie =
        { movie with Version := movie.Version + 1 }
    ∧ (MovieModel.Update none db movie).newDb.find movie.ID =
        some { r with
               Title := movie.Title
               Year := movie.Year
               Runtime := movie.Runtime
               Genres := movie.Genres
               Version := movie.Version + 1 } := by
  have hpred := List.find?_some h
  have hver : r.Version = movie.Version :=
    beq_iff_eq.mp ((Bool.and_eq_true _ _).mp hpred).2
  have hfind := find?_map_updateRow movie db.rows r hwf h
  have e : MovieModel.Update none db movie =
      { err := none
        movie := { movie with Version := r.Version + 1 }
        newDb := { db with rows := db.rows.map (fun s =>
          if s.ID == movie.ID && s.Version == movie.Version then updateRow movie s
          else s) }
        backendCalled := true } := by
    unfold MovieModel.Update
    simp only [h, hov, if_true]
  rw [e]
  refine ⟨rfl, hver, ?_, ?_⟩
  · simp only [hver]
  · unfold DB.find
    simp only
    rw [hfind]
    simp [updateRow, hver]

/-- Witness for C2: updating the stored sample row (id 1, version 1) with
a matching submitted version succeeds and moves both the stored and the
echoed version to 2. -/
theorem update_match_increments_version_witness :
    (MovieModel.Update none sampleDb { sampleMovie with ID := 1, Version := 1 }).err = none
    ∧ (MovieModel.Update none sampleDb { sampleMovie with ID := 1, Version := 1 }).movie.Version = 2
    ∧ (MovieModel.Update none sampleDb { sampleMovie with ID := 1, Version := 1 }).newDb.find 1
        = some { sampleRow with Version := 2 } :=
  ⟨(update_match_increments_version sampleDb
      { sampleMovie with ID := 1, Version := 1 } sampleRow
      (by decide) (by decide) (by decide)).1,
   by decide,
   by decide⟩

/-- Claim C6: `MovieModel.Get` on a valid id runs its query under the
fixed 3-second deadline counted from call entry; when the elapsed query
time exceeds the deadline the operation is abandoned and the
deadline-exceeded error is surfaced as a generic storage error — not as
`ErrRecordNotFound` — while a zero-row result is surfaced as
`ErrRecordNotFound`. -/
theorem get_deadline_storage_error (db : DB) (id : Int) (h : 1 ≤ id) :
    getTimeoutSeconds = 3
    ∧ (getTimeoutSeconds < getElapsedSeconds db id →
        MovieModel.Get none db id =
          { res := .failure (.other .deadlineExceeded), backendCalled := true }
        ∧ (MovieModel.Get none db id).res ≠ .failure .recordNotFound)
    ∧ (db.find id = none →
        MovieModel.Get none db id =
          { res := .failure .recordNotFound, backendCalled := true }) := by
  have h' : ¬ id < 1 := by omega
  refine ⟨rfl, ?_, ?_⟩
  · intro hd
    have e : MovieModel.Get none db id =
        { res := .failure (.other .deadlineExceeded), backendCalled := true } := by
      unfold MovieModel.Get
      rw [if_neg h', if_pos hd]
    exact ⟨e, by rw [e]; decide⟩
  · intro hn
    have hd : ¬ getTimeoutSeconds < getElapsedSeconds db id := by
      unfold getElapsedSeconds
      rw [hn]
      decide
    unfold MovieModel.Get
    rw [if_neg h', if_neg hd, hn]

/-- Witness for C6: on `sampleDb`, reading id 1 (a stored row, so the
query sleeps 10 seconds against the 3-second deadline) surfaces the
deadline error; reading id 3 (no row) surfaces not-found. -/
theorem get_deadline_storage_error_witness :
    MovieModel.Get none sampleDb 1 =
      { res := .failure (.other .deadlineExceeded), backendCalled := true }
    ∧ MovieModel.Get none sampleDb 3 =
      { res := .failure .recordNotFound, backendCalled := true } :=
  ⟨((get_deadline_storage_error sampleDb 1 (by decide)).2.1 (by decide)).1,
   (get_deadline_storage_error sampleDb 3 (by decide)).2.2 (by decide)⟩

/-- Claim C7 fails on this code: inserting a valid movie succeeds, but
`MovieModel.Get` on the returned id never yields the record — the query's
`pg_sleep(10)` always outlasts the 3-second deadline once a row matches,
so the round-trip read returns a deadline-exceeded storage error instead
of the inserted record. -/
theorem roundTrip_breaks_on_pg_sleep :
    (MovieModel.Insert none emptyDb 1700000000 sampleMovie).err = none
    ∧ (MovieModel.Insert none emptyDb 1700000000 sampleMovie).movie.ID = 1
    ∧ MovieModel.Get none
        (MovieModel.Insert none emptyDb 1700000000 sampleMovie).newDb 1
      = { res := .failure (.other .deadlineExceeded), backendCalled := true } := by
  decide

/-- Claim C9: `MovieModel.Update` has no id pre-check: a record with id
below 1 still causes a backend round-trip, whose zero-row outcome is
reported as `ErrEditConflict` — asymmetric with `Get` and `Delete`, which
short-circuit such ids to `ErrRecordNotFound` without a backend call. -/
theorem update_no_invalid_id_precheck (db : DB) (r : Movie)
    (hids : ∀ row ∈ db.rows, 1 ≤ row.ID) (h : r.ID < 1) :
    (MovieModel.Update none db r).backendCalled = true
    ∧ (MovieModel.Update none db r).err = some .editConflict
    ∧ (MovieModel.Get none db r.ID).backendCalled = false
    ∧ (MovieModel.Get none db r.ID).res = .failure .recordNotFound
    ∧ (MovieModel.Delete none db r.ID).backendCalled = false
    ∧ (MovieModel.Delete none db r.ID).err = some .recordNotFound := by
  have hnone : db.rows.find? (fun s => s.ID == r.ID && s.Version == r.Version) = none := by
    rw [List.find?_eq_none]
    intro x hx
    have hx1 := hids x hx
    simp only [Bool.and_eq_true, beq_iff_eq, not_and]
    intro h1
    omega
  have e1 : MovieModel.Update none db r =
      { err := some .editConflict
        movie := r
        newDb := db
        backendCalled := true } := by
    unfold MovieModel.Update
    rw [hnone]
  have e2 : MovieModel.Get none db r.ID =
      { res := .failure .recordNotFound, backendCalled := false } := by
    unfold MovieModel.Get
    rw [if_pos h]
  have e3 : MovieModel.Delete none db r.ID =
      { err := some .recordNotFound, newDb := db, backendCalled := false } := by
    unfold MovieModel.Delete
    rw [if_pos h]
  rw [e1, e2, e3]
  exact ⟨rfl, rfl, rfl, rfl, rfl, rfl⟩

/-- Witness for C9: on `sampleDb`, an update of a record with id 0 issues
the query and reports an edit conflict, while `Get`/`Delete` of id 0 stop
before the backend with not-found. -/
theorem update_no_invalid_id_precheck_witness :
    (MovieModel.Update none sampleDb { sampleMovie with ID := 0 }).backendCalled = true
    ∧ (MovieModel.Update none sampleDb { sampleMovie with ID := 0 }).err = some .editConflict
    ∧ (MovieModel.Get none sampleDb 0).backendCalled = false
    ∧ (MovieModel.Delete none sampleDb 0).backendCalled = false :=
  ⟨(update_no_invalid_id_precheck sampleDb { sampleMovie with ID := 0 }
      (by decide) (by decide)).1,
   (update_no_invalid_id_precheck sampleDb { sampleMovie with ID := 0 }
      (by decide) (by decide)).2.1,
   by decide,
   by decide⟩

/-- Claim C10: failures leave the caller's in-memory record intact: an
`Insert` that returns an error has written none of id, created_at,
version; an `Update` that returns an error (edit conflict included) has
left the version field untouched. -/
theorem mutation_error_leaves_caller_record (f1 f2 : Option Nat)
    (db1 db2 : DB) (now : Nat) (m1 m2 : Movie) :
    ((MovieModel.Insert f1 db1 now m1).err.isSome →
        (MovieModel.Insert f1 db1 now m1).movie.ID = m1.ID
        ∧ (MovieModel.Insert f1 db1 now m1).movie.CreatedAt = m1.CreatedAt
        ∧ (MovieModel.Insert f1 db1 now m1).movie.Version = m1.Version)
    ∧ ((MovieModel.Update f2 db2 m2).err.isSome →
        (MovieModel.Update f2 db2 m2).movie.Version = m2.Version) := by
  constructor
  · intro hi
    cases f1 with
    | some c => exact ⟨rfl, rfl, rfl⟩
    | none => simp [MovieModel.Insert] at hi
  · intro hu
    cases f2 with
    | some c => rfl
    | none =>
      simp only [MovieModel.Update] at hu ⊢
      cases hfind : db2.rows.find? (fun s => s.ID == m2.ID && s.Version == m2.Version) with
      | none =>
        simp only [hfind] at hu ⊢
      | some r =>
        simp only [hfind] at hu ⊢
        by_cases hov : r.Version + 1 ≤ maxInt32
        · simp only [hov, if_true] at hu
          simp at hu
        · simp only [hov, if_false]

/-- Witness for C10: an insert hit by an injected backend fault echoes
nothing into the record; a stale-version update (submitted version 9
against stored version 1) conflicts and leaves the version at 9. -/
theorem mutation_error_leaves_caller_record_witness :
    (MovieModel.Insert (some 7) emptyDb 1700000000 sampleMovie).movie.Version = 0
    ∧ (MovieModel.Update none sampleDb { sampleMovie with ID := 1, Version := 9 }).movie.Version = 9 :=
  ⟨((mutation_error_leaves_caller_record (some 7) none emptyDb sampleDb
      1700000000 sampleMovie sampleMovie).1 (by decide)).2.2,
   (mutation_error_leaves_caller_record (some 7) none emptyDb sampleDb
      1700000000 sampleMovie { sampleMovie with ID := 1, Version := 9 }).2 (by decide)⟩

set_option maxRecDepth 4000 in
/-- Claim C8: `ValidateMovie` evaluates every field invariant of the data
model independently, collecting violations keyed by field name, and
produces zero violations exactly when all invariants hold: title non-empty
and at most 500 bytes, year in [1888, current calendar year], runtime
positive, 1-5 genres without duplicates.  Each key's presence is
characterized by exactly its field's invariants, independent of the other
fields; the closing conjuncts check the spec's concrete cases — empty
genres, duplicate genres, and a 501-byte title each yield a violation
under the matching key. -/
theorem validateMovie_characterization (y : Int) (m : Movie) :
    (movieViolations y m = [] ↔
      (m.Title ≠ "" ∧ m.Title.utf8ByteSize ≤ 500
        ∧ 1888 ≤ m.Year ∧ m.Year ≤ y
        ∧ 0 < m.Runtime
        ∧ 1 ≤ m.Genres.length ∧ m.Genres.length ≤ 5 ∧ m.Genres.Nodup))
    ∧ (hasKey "genres" (movieViolations y m) = true ↔
        ¬(1 ≤ m.Genres.length ∧ m.Genres.length ≤ 5 ∧ m.Genres.Nodup))
    ∧ (hasKey "title" (movieViolations y m) = true ↔
        ¬(m.Title ≠ "" ∧ m.Title.utf8ByteSize ≤ 500))
    ∧ (hasKey "year" (movieViolations y m) = true ↔
        ¬(1888 ≤ m.Year ∧ m.Year ≤ y))
    ∧ (hasKey "runtime" (movieViolations y m) = true ↔ ¬(0 < m.Runtime))
    ∧ hasKey "genres" (movieViolations 2026 { sampleMovie with Genres := [] }) = true
    ∧ hasKey "genres" (movieViolations 2026 { sampleMovie with Genres := ["drama", "drama"] }) = true
    ∧ hasKey "title" (movieViolations 2026 { sampleMovie with Title := title501 }) = true
    ∧ movieViolations 2026 sampleMovie = [] := by
  refine ⟨?_, ?_, ?_, ?_, ?_, by decide, by decide, by decide, by decide⟩
  · unfold movieViolations ValidateMovie
    simp only [Check_errors_eq_nil, Unique_eq_true_iff, decide_eq_true_eq,
      bne_iff_ne, ne_eq, and_true, true_and, and_assoc]
    constructor
    · rintro ⟨h1, h2, h3, h4, h5, h6, h7, h8, h9, h10, h11⟩
      exact ⟨h1, h2, h4, h5, h7, h9, h10, h11⟩
    · rintro ⟨h1, h2, h4, h5, h7, h9, h10, h11⟩
      refine ⟨h1, h2, by omega, h4, h5, by omega, h7, ?_, h9, h10, h11⟩
      intro hnil
      rw [hnil] at h9
      simp at h9
  · unfold movieViolations ValidateMovie
    simp only [hasKey_Check]
    simp [hasKey]
    have hu : (validator.Unique m.Genres = false) ↔ ¬ m.Genres.Nodup := by
      rw [← Unique_eq_true_iff]
      simp
    rw [hu]
    constructor
    · rintro ((h | h) | h)
      · intro h1
        rw [h] at h1
        simp at h1
      · intro _ h2
        exact absurd h2 (by omega)
      · intro _ _
        exact h
    · intro h
      by_cases h1 : 1 ≤ m.Genres.length
      · by_cases h2 : m.Genres.length ≤ 5
        · exact Or.inr (h h1 h2)
        · exact Or.inl (Or.inr (by omega))
      · have h0 : m.Genres.length = 0 := by omega
        exact Or.inl (Or.inl (List.length_eq_zero.mp h0))
  · unfold movieViolations ValidateMovie
    simp only [hasKey_Check]
    simp [hasKey]
    tauto
  · unfold movieViolations ValidateMovie
    simp only [hasKey_Check]
    simp [hasKey]
    omega
  · unfold movieViolations ValidateMovie
    simp only [hasKey_Check]
    simp [hasKey]
    omega

end Greenlight
